import Mathlib

/-!
Verification of the video-uploader pipeline (src/main.py) against its
natural-language specification.

The Python script is shallowly embedded: each function of the source is
translated into a Lean definition over explicit data.  Remote I/O (the
Webflow API and the S3 form POST) is modelled by oracle parameters: a
listing oracle `Nat → ListingResult` for the polling loop, `PyResult`
values for calls that may raise, and an explicit `FolderService` state
for the folder namespace.  Python exceptions are modelled by the
`PyResult.raises` constructor; an uncaught exception terminates the
interpreter with exit code 1.
-/

namespace VideoUploader

/-- Python truthiness of an optional string: `None` and `""` are falsy
(`getattr(x, f, None)` results are of this shape in the source). -/
def pyTruthy : Option String → Bool
  | none => false
  | some s => !(s == "")

/-- Python `a or b` on optional strings: first truthy operand, else `b`. -/
def pyOr (a b : Option String) : Option String :=
  if pyTruthy a then a else b

/-- A remote asset as seen in the listing (`webflow.assets.list`): id plus
the three possibly-present URL fields probed by `getattr` in the source. -/
structure Asset where
  id : String
  original_url : Option String
  hosted_url : Option String
  url : Option String
deriving DecidableEq, Repr

/-- `getattr(a,'original_url',None) or getattr(a,'hosted_url',None) or
getattr(a,'url',None)` from src/main.py lines 112-114. -/
def urlOf (a : Asset) : Option String :=
  pyOr a.original_url (pyOr a.hosted_url a.url)

/-- Outcome of one `webflow.assets.list` call inside the polling loop:
either a listing, or an exception (transport/service error). -/
inductive ListingResult where
  | ok (assets : List Asset)
  | error
deriving DecidableEq, Repr

/-- Observable result of `poll_for_asset_url`: the returned value, the
number of listing attempts performed, and the number of `time.sleep`
calls executed. -/
structure PollResult where
  result : Option String
  attempts : Nat
  sleeps : Nat
deriving DecidableEq, Repr

/-- The body of the `for i in range(retries)` loop of `poll_for_asset_url`
(src/main.py lines 104-126), starting at iteration `i` with `remaining`
iterations left.  Each iteration performs one listing call; on a hit with
a truthy URL it returns immediately (line 117, no sleep); otherwise —
asset absent, asset present with no truthy URL, or an exception — it
sleeps (lines 123 and 126) and continues. -/
def pollFrom (oracle : Nat → ListingResult) (asset_id : String)
    (i : Nat) : Nat → PollResult
  | 0 => ⟨none, 0, 0⟩
  | remaining + 1 =>
    match oracle i with
    | .error =>
      let p := pollFrom oracle asset_id (i + 1) remaining
      ⟨p.result, p.attempts + 1, p.sleeps + 1⟩
    | .ok assets =>
      match assets.find? (fun a => a.id == asset_id) with
      | some a =>
        if pyTruthy (urlOf a) then
          ⟨urlOf a, 1, 0⟩
        else
          let p := pollFrom oracle asset_id (i + 1) remaining
          ⟨p.result, p.attempts + 1, p.sleeps + 1⟩
      | none =>
        let p := pollFrom oracle asset_id (i + 1) remaining
        ⟨p.result, p.attempts + 1, p.sleeps + 1⟩

/-- `poll_for_asset_url(site_id, asset_id, retries, delay)` from
src/main.py lines 101-127.  The site id and the sleep duration do not
influence the control flow; the listing oracle already ranges over the
site's assets. -/
def poll_for_asset_url (oracle : Nat → ListingResult) (asset_id : String)
    (retries : Nat) : PollResult :=
  pollFrom oracle asset_id 0 retries

/-- One listing outcome is "not ready" for `asset_id`: the call raised, or
the asset is absent, or it is present with no truthy URL field. -/
def notReady (r : ListingResult) (asset_id : String) : Bool :=
  match r with
  | .error => true
  | .ok assets =>
    match assets.find? (fun a => a.id == asset_id) with
    | none => true
    | some a => !(pyTruthy (urlOf a))

/-- The pre-signed form fields returned by `webflow.assets.create`
(`upload_init.upload_details`, src/main.py lines 145-153). -/
structure UploadDetails where
  acl : String
  bucket : String
  x_amz_algorithm : String
  x_amz_credential : String
  x_amz_date : String
  key : String
  policy : String
  x_amz_signature : String
  success_action_status : Nat
  content_type : String
  cache_control : String
deriving DecidableEq, Repr

/-- Result of the multipart form POST as classified by src/main.py
lines 160-171. -/
inductive UploadOutcome where
  | success
  | uploadRejected (status : Nat)
deriving DecidableEq, Repr

/-- The status check of src/main.py line 160:
`if upload_response.status_code == 201`.  The session's field bag `d` is
in scope at that line but the comparison is against the literal 201. -/
def uploadStatusOutcome (_d : UploadDetails) (status_code : Nat) : UploadOutcome :=
  if status_code == 201 then .success else .uploadRejected status_code

/-- Python whitespace for `str.strip()` (ASCII fragment). -/
def pyIsSpace (c : Char) : Bool :=
  c == ' ' || c == '\t' || c == '\n' || c == '\r' ||
  c == Char.ofNat 11 || c == Char.ofNat 12

/-- `s.strip().lower()` from src/main.py line 204. -/
def pyStripLower (s : String) : String :=
  String.mk ((((s.data.dropWhile pyIsSpace).reverse.dropWhile
    pyIsSpace).reverse).map Char.toLower)

/-- The confirmation test of src/main.py line 206:
`confirm == 'y' or confirm == ''` where
`confirm = input(...).strip().lower()`. -/
def confirmProceeds (inp : String) : Bool :=
  let confirm := pyStripLower inp
  confirm == "y" || confirm == ""

/-- A remote asset folder as returned by `webflow.assets.list_folders`:
opaque id plus the possibly-absent `display_name` probed by `getattr`. -/
structure AssetFolder where
  id : String
  display_name : Option String
deriving DecidableEq, Repr

/-- The remote folder namespace, with a fresh-id counter standing for the
service's id assignment.  No concurrent writers: a created folder is
visible to the next listing. -/
structure FolderService where
  folders : List AssetFolder
  fresh : Nat
deriving DecidableEq, Repr

/-- The remote calls the pipeline can issue, for frame/trace claims. -/
inductive RemoteCall where
  | listFolders
  | createFolder
  | createAsset
  | postForm
  | listAssets
deriving DecidableEq, Repr

/-- Result of one `create_asset_folder` run: the returned id, the service
state afterwards, and the remote calls issued. -/
structure FolderResolution where
  folder_id : String
  service : FolderService
  calls : List RemoteCall
deriving DecidableEq, Repr

/-- The linear scan of src/main.py lines 81-85:
`next((folder for folder in folders_list if getattr(folder,
'display_name', None) == folder_name), None)`.  In Python `None ==
folder_name` is false for a string `folder_name`, so the match requires a
present, exactly (case-sensitively) equal display name. -/
def findFolder (folders : List AssetFolder) (name : String) : Option AssetFolder :=
  folders.find? (fun f => f.display_name == some name)

/-- `create_asset_folder(site_id, folder_name)` from src/main.py
lines 77-92: list folders, scan by display name, return the existing id
with no mutation, else issue one create-folder request and return the
newly assigned id. -/
def create_asset_folder (s : FolderService) (name : String) : FolderResolution :=
  match findFolder s.folders name with
  | some folder => ⟨folder.id, s, [.listFolders]⟩
  | none =>
    let newId := "folder-" ++ toString s.fresh
    ⟨newId,
     ⟨s.folders ++ [⟨newId, some name⟩], s.fresh + 1⟩,
     [.listFolders, .createFolder]⟩

/-- A Python expression that either produces a value or raises. -/
inductive PyResult (α : Type) where
  | ok (a : α)
  | raises (msg : String)
deriving DecidableEq, Repr

/-- The upload session returned by `webflow.assets.create`
(src/main.py lines 136-145). -/
structure UploadSession where
  asset_id : String
  upload_url : String
  details : UploadDetails
deriving DecidableEq, Repr

/-- What `upload_local_asset` is observed to do: the message printed by
its `except` clause if an exception was caught, the classification of the
POST status if one was received, the polled URL if polling ran, and the
remote calls issued. -/
structure UploadReport where
  errorCaught : Option String
  outcome : Option UploadOutcome
  finalUrl : Option String
  calls : List RemoteCall
deriving DecidableEq, Repr

/-- `upload_local_asset(site_id, folder_id, file_path)` from src/main.py
lines 129-174.  The whole body is inside `try:`; any exception from
hashing, upload initiation or the POST is caught at lines 173-174, its
message printed, and the function returns normally.  A POST status of 201
(hardcoded, line 160) leads to polling with the default budget of 20;
any other status prints a failure and skips polling (line 171). -/
def upload_local_asset (hashRes : PyResult String)
    (initRes : PyResult UploadSession) (postRes : PyResult Nat)
    (pollOracle : Nat → ListingResult) : UploadReport :=
  match hashRes with
  | .raises m => ⟨some m, none, none, []⟩
  | .ok _ =>
    match initRes with
    | .raises m => ⟨some m, none, none, [.createAsset]⟩
    | .ok sess =>
      match postRes with
      | .raises m => ⟨some m, none, none, [.createAsset, .postForm]⟩
      | .ok status =>
        match uploadStatusOutcome sess.details status with
        | .success =>
          let p := poll_for_asset_url pollOracle sess.asset_id 20
          ⟨none, some .success, p.result,
           [.createAsset, .postForm] ++ List.replicate p.attempts .listAssets⟩
        | .uploadRejected st =>
          ⟨none, some (.uploadRejected st), none, [.createAsset, .postForm]⟩

/-- The size comparison of src/main.py line 196:
`((original_size - new_size) / original_size) * 100`.  Python raises
`ZeroDivisionError` when `original_size` is zero; otherwise the value is
the exact ratio (the source computes it as a float only to print it). -/
def saved_percent (original_size new_size : Nat) : Option ℚ :=
  if original_size = 0 then none
  else some (((original_size : ℚ) - (new_size : ℚ)) / (original_size : ℚ) * 100)

/-- Observable outcome of one `main` run from the size-comparison step on:
process exit code, remote calls issued, and whether the confirmation
prompt was reached. -/
structure MainRun where
  exitCode : Nat
  calls : List RemoteCall
  prompted : Bool
  report : Option UploadReport
deriving DecidableEq, Repr

/-- src/main.py lines 193-217, after `compress_video` has returned: the
size comparison (line 196) runs before the confirmation prompt
(line 204); a `ZeroDivisionError` there is uncaught, so the interpreter
exits with code 1 and the prompt is never shown.  Otherwise the user is
prompted; on decline nothing further happens and `main` returns (exit
code 0).  On confirmation, folder resolution runs outside any `try`,
so an exception there is fatal (exit code 1); with a folder id in hand
(and line 214's truthiness check passed) `upload_local_asset` runs,
catches its own exceptions, and `main` returns with exit code 0. -/
def mainFromSizes (original_size new_size : Nat) (confirmInput : String)
    (folderRes : PyResult FolderResolution) (hashRes : PyResult String)
    (initRes : PyResult UploadSession) (postRes : PyResult Nat)
    (pollOracle : Nat → ListingResult) : MainRun :=
  match saved_percent original_size new_size with
  | none => ⟨1, [], false, none⟩
  | some _ =>
    if confirmProceeds confirmInput then
      match folderRes with
      | .raises _ => ⟨1, [.listFolders], true, none⟩
      | .ok fr =>
        if fr.folder_id == "" then
          ⟨0, fr.calls, true, none⟩
        else
          let rep := upload_local_asset hashRes initRes postRes pollOracle
          ⟨0, fr.calls ++ rep.calls, true, some rep⟩
    else
      ⟨0, [], true, none⟩

/-! ### Content hasher

`get_file_md5` (src/main.py lines 94-99) streams the file in 8192-byte
chunks into `hashlib.md5` and returns the hex digest.  The MD5 algorithm
(RFC 1321) is embedded below over `Nat` with explicit `% 2^32`; file
contents are byte lists. -/

/-- 2^32, the word modulus of MD5. -/
def M32 : Nat := 4294967296

/-- 32-bit complement (operands are kept below `M32`). -/
def wnot (x : Nat) : Nat := x ^^^ (M32 - 1)

/-- 32-bit left rotation (operand below `M32`). -/
def rotl (x s : Nat) : Nat := ((x <<< s) % M32) ||| (x >>> (32 - s))

/-- MD5 round function F (rounds 0-15). -/
def mdF (b c d : Nat) : Nat := (b &&& c) ||| (wnot b &&& d)

/-- MD5 round function G (rounds 16-31). -/
def mdG (b c d : Nat) : Nat := (d &&& b) ||| (wnot d &&& c)

/-- MD5 round function H (rounds 32-47). -/
def mdH (b c d : Nat) : Nat := b ^^^ c ^^^ d

/-- MD5 round function I (rounds 48-63). -/
def mdI (b c d : Nat) : Nat := c ^^^ (b ||| wnot d)

/-- The 64 MD5 sine-derived constants. -/
def mdKTable : List Nat :=
  [0xd76aa478, 0xe8c7b756, 0x242070db, 0xc1bdceee,
   0xf57c0faf, 0x4787c62a, 0xa8304613, 0xfd469501,
   0x698098d8, 0x8b44f7af, 0xffff5bb1, 0x895cd7be,
   0x6b901122, 0xfd987193, 0xa679438e, 0x49b40821,
   0xf61e2562, 0xc040b340, 0x265e5a51, 0xe9b6c7aa,
   0xd62f105d, 0x02441453, 0xd8a1e681, 0xe7d3fbc8,
   0x21e1cde6, 0xc33707d6, 0xf4d50d87, 0x455a14ed,
   0xa9e3e905, 0xfcefa3f8, 0x676f02d9, 0x8d2a4c8a,
   0xfffa3942, 0x8771f681, 0x6d9d6122, 0xfde5380c,
   0xa4beea44, 0x4bdecfa9, 0xf6bb4b60, 0xbebfbc70,
   0x289b7ec6, 0xeaa127fa, 0xd4ef3085, 0x04881d05,
   0xd9d4d039, 0xe6db99e5, 0x1fa27cf8, 0xc4ac5665,
   0xf4292244, 0x432aff97, 0xab9423a7, 0xfc93a039,
   0x655b59c3, 0x8f0ccc92, 0xffeff47d, 0x85845dd1,
   0x6fa87e4f, 0xfe2ce6e0, 0xa3014314, 0x4e0811a1,
   0xf7537e82, 0xbd3af235, 0x2ad7d2bb, 0xeb86d391]

/-- Constant for step `i`. -/
def mdK (i : Nat) : Nat := mdKTable.getD i 0

/-- The 64 MD5 per-step rotation amounts. -/
def mdSTable : List Nat :=
  [7, 12, 17, 22, 7, 12, 17, 22, 7, 12, 17, 22, 7, 12, 17, 22,
   5, 9, 14, 20, 5, 9, 14, 20, 5, 9, 14, 20, 5, 9, 14, 20,
   4, 11, 16, 23, 4, 11, 16, 23, 4, 11, 16, 23, 4, 11, 16, 23,
   6, 10, 15, 21, 6, 10, 15, 21, 6, 10, 15, 21, 6, 10, 15, 21]

/-- Rotation amount for step `i`. -/
def mdS (i : Nat) : Nat := mdSTable.getD i 0

/-- The four-word MD5 state. -/
structure MDState where
  a : Nat
  b : Nat
  c : Nat
  d : Nat
deriving DecidableEq, Repr

/-- The MD5 initialization vector. -/
def mdInit : MDState := ⟨0x67452301, 0xefcdab89, 0x98badcfe, 0x10325476⟩

/-- Little-endian 32-bit word `j` of a 64-byte block. -/
def blockWord (block : List Nat) (j : Nat) : Nat :=
  block.getD (4 * j) 0 + 256 * block.getD (4 * j + 1) 0 +
    65536 * block.getD (4 * j + 2) 0 + 16777216 * block.getD (4 * j + 3) 0

/-- One of the 64 MD5 steps, on message-word accessor `X`. -/
def mdRound (X : Nat → Nat) (st : MDState) (i : Nat) : MDState :=
  let fg : Nat × Nat :=
    if i < 16 then (mdF st.b st.c st.d, i)
    else if i < 32 then (mdG st.b st.c st.d, (5 * i + 1) % 16)
    else if i < 48 then (mdH st.b st.c st.d, (3 * i + 5) % 16)
    else (mdI st.b st.c st.d, (7 * i) % 16)
  let t := (st.a + fg.1 + mdK i + X fg.2) % M32
  ⟨st.d, (st.b + rotl t (mdS i)) % M32, st.b, st.c⟩

/-- MD5 compression of one 64-byte block into the running state. -/
def mdCompress (st : MDState) (block : List Nat) : MDState :=
  let r := (List.range 64).foldl (mdRound (blockWord block)) st
  ⟨(st.a + r.a) % M32, (st.b + r.b) % M32, (st.c + r.c) % M32, (st.d + r.d) % M32⟩

/-- MD5 padding: append 0x80, zero bytes to 56 mod 64, then the original
bit length as a 64-bit little-endian quantity. -/
def mdPad (bytes : List Nat) : List Nat :=
  let len := bytes.length
  let z := (119 - len % 64) % 64
  bytes ++ 128 :: List.replicate z 0 ++
    (List.range 8).map (fun i => ((8 * len) >>> (8 * i)) % 256)

/-- Fold the compression over consecutive 64-byte blocks.  The fuel is
structural so that the kernel can evaluate digests; `bytes.length` is
always enough fuel since each step consumes 64 bytes. -/
def mdBlocks : Nat → MDState → List Nat → MDState
  | 0, st, _ => st
  | fuel + 1, st, bytes =>
    if bytes.isEmpty then st
    else mdBlocks fuel (mdCompress st (bytes.take 64)) (bytes.drop 64)

/-- Lower-case hex digit. -/
def hexDigit (n : Nat) : Char :=
  if n < 10 then Char.ofNat (48 + n) else Char.ofNat (87 + n)

/-- Two-digit lower-case hex rendering of a byte. -/
def byteHex (b : Nat) : List Char := [hexDigit (b / 16 % 16), hexDigit (b % 16)]

/-- The four little-endian bytes of a 32-bit word. -/
def wordLEbytes (w : Nat) : List Nat :=
  [w % 256, (w >>> 8) % 256, (w >>> 16) % 256, (w >>> 24) % 256]

/-- MD5 hex digest of a byte list (the one-shot `hashlib.md5(data)`
`.hexdigest()`). -/
def md5hex (bytes : List Nat) : String :=
  let padded := mdPad bytes
  let st := mdBlocks padded.length mdInit padded
  String.mk (((wordLEbytes st.a ++ wordLEbytes st.b ++ wordLEbytes st.c ++
    wordLEbytes st.d).map byteHex).flatten)

/-- A `hashlib.md5()` object: the bytes absorbed so far by `update`. -/
structure Md5Ctx where
  absorbed : List Nat
deriving DecidableEq, Repr

/-- `hash_md5.update(chunk)`: absorb more bytes. -/
def md5_update (ctx : Md5Ctx) (chunk : List Nat) : Md5Ctx :=
  ⟨ctx.absorbed ++ chunk⟩

/-- `hash_md5.hexdigest()`: digest of everything absorbed. -/
def md5_hexdigest (ctx : Md5Ctx) : String := md5hex ctx.absorbed

/-- The chunk stream produced by `iter(lambda: f.read(8192), b"")`
(src/main.py line 97): successive 8192-byte reads until the file is
exhausted.  Fuelled structurally; each step consumes at least one byte. -/
def readChunksAux : Nat → List Nat → List (List Nat)
  | 0, _ => []
  | fuel + 1, l =>
    if l.isEmpty then []
    else l.take 8192 :: readChunksAux fuel (l.drop 8192)

/-- All 8192-byte reads of a file with the given contents. -/
def readChunks (l : List Nat) : List (List Nat) := readChunksAux l.length l

/-- `get_file_md5(path)` from src/main.py lines 94-99, as a function of
the file's byte contents: fold `update` over the 8192-byte reads, then
take the hex digest. -/
def get_file_md5 (contents : List Nat) : String :=
  md5_hexdigest ((readChunks contents).foldl md5_update ⟨[]⟩)

/-! ### Theorems -/

/-- A concrete pre-signed field bag whose declared expected-success
status is 200. -/
def d200 : UploadDetails :=
  ⟨"private", "bkt", "AWS4-HMAC-SHA256", "cred", "20240101", "k", "pol",
   "sig", 200, "video/webm", "no-cache"⟩

/-- C1 (counterexample): with a session declaring expected-success status
200 and an HTTP response of exactly that status, the Form Uploader still
reports a rejection carrying status 200 — so success is not determined by
the session's declared expected-success field. -/
theorem c1_counterexample :
    uploadStatusOutcome d200 200 = UploadOutcome.uploadRejected 200 ∧
    d200.success_action_status = 200 := by
  decide

/-- C1 (amended): the Form Uploader reports success if and only if the
response status code equals the literal 201, regardless of the session's
declared expected-success status field; any other status code is reported
as UploadRejected carrying the status code. -/
theorem c1_success_iff_literal_201 (d : UploadDetails) (status : Nat) :
    (uploadStatusOutcome d status = UploadOutcome.success ↔ status = 201) ∧
    (status ≠ 201 →
      uploadStatusOutcome d status = UploadOutcome.uploadRejected status) := by
  constructor
  · unfold uploadStatusOutcome
    by_cases h : status = 201 <;> simp [h]
  · intro h
    unfold uploadStatusOutcome
    simp [h]

/-- C1 witness: rejection of a 200 response under a session declaring
200, via the amended theorem. -/
theorem c1_witness :
    uploadStatusOutcome d200 200 = UploadOutcome.uploadRejected 200 :=
  (c1_success_iff_literal_201 d200 200).2 (by decide)

/-- C9: the upload proceeds iff the confirmation input, stripped and
lowercased, is exactly "y" or the empty string; "yes" and "n" decline,
while "" and " Y " proceed. -/
theorem c9_confirmation_rule (inp : String) :
    (confirmProceeds inp = true ↔
      (pyStripLower inp = "y" ∨ pyStripLower inp = "")) ∧
    confirmProceeds "yes" = false ∧
    confirmProceeds "n" = false ∧
    confirmProceeds "" = true ∧
    confirmProceeds " Y " = true := by
  refine ⟨?_, by decide, by decide, by decide, by decide⟩
  unfold confirmProceeds
  simp

/-- C10: with a zero-length input file, the size-comparison step has no
value (Python raises ZeroDivisionError), the run terminates with exit
code 1 before the confirmation prompt is shown and before any remote
call; for a non-empty input the size reduction is well-defined. -/
theorem c10_zero_size_division :
    (∀ (new_size : Nat) (confirmInput : String)
        (folderRes : PyResult FolderResolution) (hashRes : PyResult String)
        (initRes : PyResult UploadSession) (postRes : PyResult Nat)
        (pollOracle : Nat → ListingResult),
      mainFromSizes 0 new_size confirmInput folderRes hashRes initRes
          postRes pollOracle =
        { exitCode := 1, calls := [], prompted := false, report := none }) ∧
    (∀ original_size new_size : Nat, original_size ≠ 0 →
      (saved_percent original_size new_size).isSome = true) := by
  constructor
  · intro new_size confirmInput folderRes hashRes initRes postRes pollOracle
    simp [mainFromSizes, saved_percent]
  · intro original_size new_size h
    simp [saved_percent, h]

/-- C10 witness: the size reduction is defined for a 10-byte original. -/
theorem c10_witness : (saved_percent 10 5).isSome = true :=
  c10_zero_size_division.2 10 5 (by decide)

/-- C8: when the user answers the confirmation prompt with "n", no remote
call of any kind is issued and the process exits with code 0. -/
theorem c8_decline_makes_no_calls (original_size new_size : Nat)
    (folderRes : PyResult FolderResolution) (hashRes : PyResult String)
    (initRes : PyResult UploadSession) (postRes : PyResult Nat)
    (pollOracle : Nat → ListingResult) (h : original_size ≠ 0) :
    mainFromSizes original_size new_size "n" folderRes hashRes initRes
        postRes pollOracle =
      { exitCode := 0, calls := [], prompted := true, report := none } := by
  have hs : saved_percent original_size new_size =
      some (((original_size : ℚ) - (new_size : ℚ)) / (original_size : ℚ) * 100) := by
    simp [saved_percent, h]
  have hc : confirmProceeds "n" = false := by decide
  simp [mainFromSizes, hs, hc]

/-- C8 witness: a concrete declined run. -/
theorem c8_witness :
    mainFromSizes 10 5 "n"
      (PyResult.ok ⟨"fid", ⟨[], 0⟩, [RemoteCall.listFolders]⟩)
      (PyResult.ok "h") (PyResult.ok ⟨"a1", "u", d200⟩) (PyResult.ok 201)
      (fun _ => ListingResult.ok []) =
      { exitCode := 0, calls := [], prompted := true, report := none } :=
  c8_decline_makes_no_calls 10 5 _ _ _ _ _ (by decide)

/-- C3 (counterexample): a run in which upload initiation raises a
remote-service error does not exit with code 1 — `upload_local_asset`
catches the exception (src/main.py lines 173-174), reports it, and the
process exits with code 0. -/
theorem c3_counterexample :
    (mainFromSizes 10 5 "y"
        (PyResult.ok ⟨"fid", ⟨[], 0⟩, [RemoteCall.listFolders]⟩)
        (PyResult.ok "hash") (PyResult.raises "RemoteServiceError")
        (PyResult.raises "unreached") (fun _ => ListingResult.error)) =
      { exitCode := 0,
        calls := [RemoteCall.listFolders, RemoteCall.createAsset],
        prompted := true,
        report := some ⟨some "RemoteServiceError", none, none,
          [RemoteCall.createAsset]⟩ } := by
  decide

/-- C3 (amended): a remote-service failure during folder resolution is
fatal (uncaught, exit code 1, not retried); a failure during upload
initiation is caught inside `upload_local_asset`, reported in its error
message, not retried (exactly one create-asset call), and the process
exits with code 0. -/
theorem c3_folder_fatal_init_caught (original_size new_size : Nat)
    (inp m : String) (hashRes : PyResult String)
    (initRes : PyResult UploadSession) (postRes : PyResult Nat)
    (pollOracle : Nat → ListingResult)
    (h0 : original_size ≠ 0) (hc : confirmProceeds inp = true) :
    (mainFromSizes original_size new_size inp (PyResult.raises m) hashRes
        initRes postRes pollOracle).exitCode = 1 ∧
    (∀ (fr : FolderResolution) (hsh msg : String) (postRes2 : PyResult Nat)
        (orc2 : Nat → ListingResult), (fr.folder_id == "") = false →
      mainFromSizes original_size new_size inp (PyResult.ok fr)
          (PyResult.ok hsh) (PyResult.raises msg) postRes2 orc2 =
        { exitCode := 0, calls := fr.calls ++ [RemoteCall.createAsset],
          prompted := true,
          report := some ⟨some msg, none, none, [RemoteCall.createAsset]⟩ }) := by
  have hs : saved_percent original_size new_size =
      some (((original_size : ℚ) - (new_size : ℚ)) / (original_size : ℚ) * 100) := by
    simp [saved_percent, h0]
  constructor
  · simp [mainFromSizes, hs, hc]
  · intro fr hsh msg postRes2 orc2 hfid
    simp [mainFromSizes, hs, hc, hfid, upload_local_asset]

/-- C3 witness: concrete instances of both conjuncts of the amended
claim. -/
theorem c3_witness :
    mainFromSizes 10 5 "y"
      (PyResult.ok ⟨"fid", ⟨[], 0⟩, [RemoteCall.listFolders]⟩)
      (PyResult.ok "hash") (PyResult.raises "boom") (PyResult.ok 201)
      (fun _ => ListingResult.ok []) =
      { exitCode := 0,
        calls := [RemoteCall.listFolders] ++ [RemoteCall.createAsset],
        prompted := true,
        report := some ⟨some "boom", none, none, [RemoteCall.createAsset]⟩ } :=
  (c3_folder_fatal_init_caught 10 5 "y" "m" (PyResult.ok "hash")
      (PyResult.ok ⟨"a1", "u", d200⟩) (PyResult.ok 201)
      (fun _ => ListingResult.ok []) (by decide) (by decide)).2
    ⟨"fid", ⟨[], 0⟩, [RemoteCall.listFolders]⟩ "hash" "boom" (PyResult.ok 201)
    (fun _ => ListingResult.ok []) (by decide)

/-- A truthy optional string is `some` of its default-extracted value. -/
theorem pyTruthy_getD (o : Option String) (h : pyTruthy o = true) :
    o = some (o.getD "") := by
  cases o with
  | none => simp [pyTruthy] at h
  | some s => rfl

/-- A loop in which every consulted listing is "not ready" runs out its
remaining iterations, sleeping once per iteration. -/
theorem pollFrom_notReady (oracle : Nat → ListingResult) (aid : String) :
    ∀ (r i : Nat), (∀ j, j < r → notReady (oracle (i + j)) aid = true) →
      pollFrom oracle aid i r = ⟨none, r, r⟩ := by
  intro r
  induction r with
  | zero => intro i _; rfl
  | succ n ih =>
    intro i h
    have h0 : notReady (oracle i) aid = true := by
      simpa using h 0 (Nat.succ_pos n)
    have hrest : ∀ j, j < n → notReady (oracle (i + 1 + j)) aid = true := by
      intro j hj
      have e : i + 1 + j = i + (j + 1) := by omega
      rw [e]
      exact h (j + 1) (by omega)
    have hstep := ih (i + 1) hrest
    unfold notReady at h0
    cases horc : oracle i with
    | error => simp [pollFrom, horc, hstep]
    | ok assets =>
      rw [horc] at h0
      cases hf : assets.find? (fun a => a.id == aid) with
      | none => simp [pollFrom, horc, hf, hstep]
      | some a =>
        simp only [hf] at h0
        simp only [Bool.not_eq_true'] at h0
        simp [pollFrom, horc, hf, h0, hstep]

/-- C2 (counterexample): with a budget of one attempt and a listing that
never contains the asset, the poller performs one attempt, times out —
and sleeps once, after that final attempt, where the claim predicts no
sleep at all. -/
theorem c2_counterexample :
    poll_for_asset_url (fun _ => ListingResult.ok []) "a1" 1 =
      { result := none, attempts := 1, sleeps := 1 } ∧
    (((poll_for_asset_url (fun _ => ListingResult.ok []) "a1" 1).sleeps : Nat) == 0) =
      false := by
  decide

/-- C2 (amended): for every budget and every sequence of listings in
which the target asset never exposes a URL, the poller performs exactly
`maxAttempts` listing attempts, returns the timeout result (`None`), and
sleeps the interval after every attempt — including the final one, for a
total of `maxAttempts` sleeps. -/
theorem c2_timeout_after_all_attempts (oracle : Nat → ListingResult)
    (asset_id : String) (retries : Nat) (_hr : 1 ≤ retries)
    (h : ∀ j, j < retries → notReady (oracle j) asset_id = true) :
    poll_for_asset_url oracle asset_id retries =
      { result := none, attempts := retries, sleeps := retries } := by
  have := pollFrom_notReady oracle asset_id retries 0
    (fun j hj => by simpa using h j hj)
  simpa [poll_for_asset_url] using this

/-- C2 witness: a two-attempt run over listings that never contain the
asset. -/
theorem c2_witness :
    poll_for_asset_url (fun _ => ListingResult.ok []) "a1" 2 =
      { result := none, attempts := 2, sleeps := 2 } :=
  c2_timeout_after_all_attempts (fun _ => ListingResult.ok []) "a1" 2
    (by decide) (fun j _ => rfl)

/-- C5: if the very first listing contains the target asset with at least
one non-empty URL field, the poller resolves within that single attempt
with no sleep, and the URL is chosen by priority: the original URL if
non-empty, else the hosted URL if non-empty, else the generic URL. -/
theorem c5_immediate_resolution (oracle : Nat → ListingResult)
    (asset_id : String) (retries : Nat) (assets : List Asset) (a : Asset)
    (hr : 1 ≤ retries)
    (h0 : oracle 0 = ListingResult.ok assets)
    (hf : assets.find? (fun x => x.id == asset_id) = some a)
    (hu : pyTruthy a.original_url = true ∨ pyTruthy a.hosted_url = true ∨
      pyTruthy a.url = true) :
    poll_for_asset_url oracle asset_id retries =
      { result := some (if pyTruthy a.original_url then a.original_url.getD ""
                        else if pyTruthy a.hosted_url then a.hosted_url.getD ""
                        else a.url.getD ""),
        attempts := 1, sleeps := 0 } := by
  have htruthy : pyTruthy (urlOf a) = true := by
    unfold urlOf pyOr
    by_cases h1 : pyTruthy a.original_url
    · simp [h1]
    · by_cases h2 : pyTruthy a.hosted_url
      · simp [h1, h2]
      · simp only [h1, if_false, h2]
        rcases hu with h | h | h
        · exact absurd h h1
        · exact absurd h h2
        · exact h
  have hchain : urlOf a =
      some (if pyTruthy a.original_url then a.original_url.getD ""
            else if pyTruthy a.hosted_url then a.hosted_url.getD ""
            else a.url.getD "") := by
    unfold urlOf pyOr
    by_cases h1 : pyTruthy a.original_url
    · simp only [h1, if_true]
      exact pyTruthy_getD _ h1
    · by_cases h2 : pyTruthy a.hosted_url
      · simp only [h1, if_false, h2, if_true]
        exact pyTruthy_getD _ h2
      · simp only [h1, if_false, h2]
        rcases hu with h | h | h
        · exact absurd h h1
        · exact absurd h h2
        · exact pyTruthy_getD _ h
  obtain ⟨r, rfl⟩ : ∃ r, retries = r + 1 := ⟨retries - 1, by omega⟩
  unfold poll_for_asset_url
  rw [hchain] at htruthy
  simp [pollFrom, h0, hf, hchain, htruthy]

/-- C5 witness: an asset whose original URL is empty and whose hosted URL
is populated resolves on the first attempt to the hosted URL. -/
theorem c5_witness :
    poll_for_asset_url
      (fun _ => ListingResult.ok [⟨"a1", some "", some "hosted-url", none⟩])
      "a1" 20 =
      { result := some "hosted-url", attempts := 1, sleeps := 0 } :=
  c5_immediate_resolution _ "a1" 20 _ ⟨"a1", some "", some "hosted-url", none⟩
    (by decide) rfl (by decide) (Or.inr (Or.inl (by decide)))

/-- Unfolding one erroring iteration of the polling loop. -/
theorem pollFrom_error_step (oracle : Nat → ListingResult) (aid : String)
    (i r : Nat) (h : oracle i = ListingResult.error) :
    pollFrom oracle aid i (r + 1) =
      ⟨(pollFrom oracle aid (i + 1) r).result,
       (pollFrom oracle aid (i + 1) r).attempts + 1,
       (pollFrom oracle aid (i + 1) r).sleeps + 1⟩ := by
  conv_lhs => rw [pollFrom]
  rw [h]

/-- Errors on every iteration before a final successful listing shift the
loop along, each consuming one attempt and one sleep. -/
theorem pollFrom_errors_then_hit (oracle : Nat → ListingResult)
    (aid : String) (assets : List Asset) (a : Asset)
    (hf : assets.find? (fun x => x.id == aid) = some a)
    (htruthy : pyTruthy (urlOf a) = true) :
    ∀ (r i : Nat), (∀ j, j < r → oracle (i + j) = ListingResult.error) →
      oracle (i + r) = ListingResult.ok assets →
      pollFrom oracle aid i (r + 1) = ⟨urlOf a, r + 1, r⟩ := by
  intro r
  induction r with
  | zero =>
    intro i _ hok
    have h0 : oracle i = ListingResult.ok assets := by simpa using hok
    simp [pollFrom, h0, hf, htruthy]
  | succ n ih =>
    intro i herr hok
    have h0 : oracle i = ListingResult.error := by
      simpa using herr 0 (Nat.succ_pos n)
    have hrest : ∀ j, j < n → oracle (i + 1 + j) = ListingResult.error := by
      intro j hj
      have e : i + 1 + j = i + (j + 1) := by omega
      rw [e]
      exact herr (j + 1) (by omega)
    have hok1 : oracle (i + 1 + n) = ListingResult.ok assets := by
      have e : i + 1 + n = i + (n + 1) := by omega
      rw [e]
      exact hok
    have hstep := ih (i + 1) hrest hok1
    rw [pollFrom_error_step oracle aid i (n + 1) h0, hstep]

/-- C6: when the first `maxAttempts - 1` polling attempts each fail with
a transport/service error but the final attempt's listing contains the
target asset with a non-empty URL, the poller still resolves to that URL;
each error only consumes one attempt (and one sleep) from the budget. -/
theorem c6_errors_only_consume_budget (oracle : Nat → ListingResult)
    (asset_id : String) (retries : Nat) (assets : List Asset) (a : Asset)
    (u : String) (hr : 1 ≤ retries)
    (herr : ∀ j, j < retries - 1 → oracle j = ListingResult.error)
    (hok : oracle (retries - 1) = ListingResult.ok assets)
    (hf : assets.find? (fun x => x.id == asset_id) = some a)
    (hu : urlOf a = some u) (hne : (u == "") = false) :
    poll_for_asset_url oracle asset_id retries =
      { result := some u, attempts := retries, sleeps := retries - 1 } := by
  have htruthy : pyTruthy (urlOf a) = true := by
    rw [hu]
    simp [pyTruthy, hne]
  obtain ⟨r, rfl⟩ : ∃ r, retries = r + 1 := ⟨retries - 1, by omega⟩
  have hmain := pollFrom_errors_then_hit oracle asset_id assets a hf htruthy
    r 0 (fun j hj => by simpa using herr j (by simpa using hj))
    (by simpa using hok)
  simpa [poll_for_asset_url, hu] using hmain

/-- C6 witness: one error, then a listing exposing the URL, with a budget
of two. -/
theorem c6_witness :
    poll_for_asset_url
      (fun i => if i = 0 then ListingResult.error
                else ListingResult.ok [⟨"a1", some "final-url", none, none⟩])
      "a1" 2 =
      { result := some "final-url", attempts := 2, sleeps := 1 } :=
  c6_errors_only_consume_budget _ "a1" 2 _
    ⟨"a1", some "final-url", none, none⟩ "final-url" (by decide)
    (fun j hj => by
      have hj0 : j = 0 := by omega
      rw [hj0]
      decide)
    rfl rfl rfl (by decide)

/-- If the scan misses the first folder list, scanning an extended list
reduces to scanning the extension. -/
theorem findFolder_append (l₁ l₂ : List AssetFolder) (name : String)
    (h : findFolder l₁ name = none) :
    findFolder (l₁ ++ l₂) name = findFolder l₂ name := by
  unfold findFolder at h ⊢
  rw [List.find?_append, h]
  rfl

/-- A freshly created folder is found by the scan for its name. -/
theorem findFolder_created (l : List AssetFolder) (name newId : String)
    (h : findFolder l name = none) :
    findFolder (l ++ [⟨newId, some name⟩]) name = some ⟨newId, some name⟩ := by
  rw [findFolder_append l _ name h]
  simp [findFolder]

/-- C4: `create_asset_folder` is idempotent in the absence of concurrent
writers: two sequential calls with the same name return the same folder
id, the two calls together issue exactly one create-folder request when
the folder was initially absent and none when it was present, and a
pre-existing folder with an exactly matching display name is returned
with no mutation at all. -/
theorem c4_resolve_or_create_idempotent (s : FolderService) (name : String) :
    (create_asset_folder s name).folder_id =
      (create_asset_folder (create_asset_folder s name).service name).folder_id ∧
    ((create_asset_folder s name).calls ++
        (create_asset_folder (create_asset_folder s name).service name).calls).count
        RemoteCall.createFolder =
      (if (findFolder s.folders name).isSome then 0 else 1) ∧
    (∀ f, findFolder s.folders name = some f →
      create_asset_folder s name = ⟨f.id, s, [RemoteCall.listFolders]⟩) := by
  cases hfind : findFolder s.folders name with
  | some f =>
    have h1 : create_asset_folder s name = ⟨f.id, s, [RemoteCall.listFolders]⟩ := by
      simp [create_asset_folder, hfind]
    refine ⟨?_, ?_, ?_⟩
    · rw [h1]
      simp [create_asset_folder, hfind]
    · rw [h1]
      simp [h1, hfind, List.count_append]
    · intro g hg
      have hgf : g = f := (Option.some.inj hg).symm
      rw [hgf]
      exact h1
  | none =>
    have h1 : create_asset_folder s name =
        ⟨"folder-" ++ toString s.fresh,
         ⟨s.folders ++ [⟨"folder-" ++ toString s.fresh, some name⟩], s.fresh + 1⟩,
         [RemoteCall.listFolders, RemoteCall.createFolder]⟩ := by
      simp [create_asset_folder, hfind]
    have h2 : findFolder (s.folders ++
        [⟨"folder-" ++ toString s.fresh, some name⟩]) name =
        some ⟨"folder-" ++ toString s.fresh, some name⟩ :=
      findFolder_created s.folders name _ hfind
    refine ⟨?_, ?_, ?_⟩
    · rw [h1]
      simp [create_asset_folder, h2]
    · rw [h1]
      simp only [create_asset_folder, h2, hfind]
      simp [List.count_append]
    · intro g hg
      exact absurd hg (by simp)

/-- C4 witness: a pre-existing folder named "Video Uploads" is returned
with no create call and no state change. -/
theorem c4_witness :
    create_asset_folder ⟨[⟨"f0", some "Video Uploads"⟩], 5⟩ "Video Uploads" =
      ⟨"f0", ⟨[⟨"f0", some "Video Uploads"⟩], 5⟩, [RemoteCall.listFolders]⟩ :=
  (c4_resolve_or_create_idempotent ⟨[⟨"f0", some "Video Uploads"⟩], 5⟩
      "Video Uploads").2.2 ⟨"f0", some "Video Uploads"⟩ (by decide)

/-- Folding `update` over the 8192-byte reads of a file absorbs exactly
the file's contents, in order. -/
theorem readChunksAux_foldl (fuel : Nat) :
    ∀ (l acc : List Nat), l.length ≤ fuel →
      (readChunksAux fuel l).foldl md5_update ⟨acc⟩ = ⟨acc ++ l⟩ := by
  induction fuel with
  | zero =>
    intro l acc h
    have hl : l = [] := List.eq_nil_of_length_eq_zero (Nat.le_zero.mp h)
    subst hl
    simp [readChunksAux]
  | succ n ih =>
    intro l acc h
    by_cases hl : l.isEmpty
    · have hnil : l = [] := by simpa [List.isEmpty_iff] using hl
      subst hnil
      simp [readChunksAux]
    · have hlen : (l.drop 8192).length ≤ n := by
        have hpos : l.length ≠ 0 := by
          intro h0
          exact hl (by simpa [List.isEmpty_iff] using
            List.eq_nil_of_length_eq_zero h0)
        rw [List.length_drop]
        omega
      rw [readChunksAux, if_neg hl, List.foldl_cons]
      have hupd : md5_update ⟨acc⟩ (l.take 8192) = ⟨acc ++ l.take 8192⟩ := rfl
      rw [hupd, ih (l.drop 8192) (acc ++ l.take 8192) hlen,
        List.append_assoc, List.take_append_drop]

set_option maxRecDepth 100000 in
/-- C7: the digest computed by `get_file_md5` is a deterministic function
of the file's byte contents — the chunked, streamed computation equals
the one-shot MD5 of the whole contents, so two runs over the same bytes
yield the identical digest string; and on a concrete pair of distinct
contents the digests differ. -/
theorem c7_digest_deterministic :
    (∀ contents : List Nat, get_file_md5 contents = md5hex contents) ∧
    (get_file_md5 [0] == get_file_md5 [1]) = false := by
  constructor
  · intro contents
    unfold get_file_md5 readChunks
    rw [readChunksAux_foldl contents.length contents [] le_rfl]
    rfl
  · decide

end VideoUploader
